import Mathlib

/-!
Shallow embedding of the Trend Analysis & Prediction Engine of the ContenAI
repository: `src/services/trends-prediction-service.ts`,
`src/services/trends.service.ts`, and the enhanced `TrendsService` variant
(`src/unnamed/part_001`), together with theorems checking the specification's
claims against it.

Modelling conventions:
* Numbers are exact rationals (`ℚ`); JavaScript `Math.round` is `jsRound`
  (floor of `x + 1/2`, halves rounding towards `+∞`, as in JS), and
  `Math.floor` is `Int.floor`.
* A JavaScript division whose result would be `Infinity` (zero denominator)
  is modelled as an `Option ℚ` that is `none` in that case.
* External collaborators (HTTP fetches, the text-generation and
  classification capabilities, `Math.random`, `Math.sin`, the clock) are
  supplied through explicit environment records.  A collaborator call that
  may throw is an `Except Unit` value; `JSON.parse` of a collaborator's free
  text is folded into the collaborator oracle, which reports either the
  parsed structured value or the raw unparsable text.
* JavaScript records (`Record<string, T>`) are association lists with
  `List.lookup`; `x || d` on a possibly-absent field is `Option.getD` (with
  the falsiness of `0` and `""` made explicit where the code can hit it).
-/

namespace ContenAI

/-- JavaScript `Math.round`: floor of `x + 1/2` (halves round towards `+∞`). -/
def jsRound (q : ℚ) : ℤ := ⌊q + 1/2⌋

/-- A historical observation `{date, value}` (`HistoricalPoint` in `trends-dto`). -/
structure HistoricalPoint where
  date : String
  value : ℚ
deriving DecidableEq

/-- One refined prediction record (`PredictionDetail` in `trends-dto`). -/
structure PredictionDetail where
  keyword : String
  currentValue : ℚ
  predictedValues : List ℚ
  explanation : String
deriving DecidableEq

/-- One scheduled recommendation (`InterventionPoint` in `trends-dto`);
the ISO timestamp is modelled as an integer day offset. -/
structure InterventionPoint where
  timestamp : ℤ
  action : String
  keywords : List String
deriving DecidableEq

/-- The result contract of `predictTrends` (`TrendPredictionResponse`). -/
structure TrendPredictionResponse where
  niche : String
  keywords : List String
  predictions : List PredictionDetail
  interventionPoints : List InterventionPoint
  nextActions : List String
  confidenceScore : ℚ
deriving DecidableEq

/-! ### `trends-prediction-service.ts`, lines 84-129: `linearRegression`

The `(index, value)` pairs built at lines 87-90; the accumulating `for` loop
over the points (lines 100-105) is written as list sums.  The `try`/`catch`
wrapping the body can never fire in JavaScript (a zero denominator yields
`Infinity`, not an exception), so it is not modelled. -/

/-- The `(x, y)` points of `linearRegression`: `x` is the positional index,
`y` the observed value (lines 87-90). -/
def regressionPoints (data : List HistoricalPoint) : List (ℚ × ℚ) :=
  (List.enum data).map (fun p => ((p.1 : ℚ), p.2.value))

/-- `sumX` accumulated at line 101. -/
def sumX (pts : List (ℚ × ℚ)) : ℚ := (pts.map Prod.fst).sum

/-- `sumY` accumulated at line 102. -/
def sumY (pts : List (ℚ × ℚ)) : ℚ := (pts.map Prod.snd).sum

/-- `sumXY` accumulated at line 103. -/
def sumXY (pts : List (ℚ × ℚ)) : ℚ := (pts.map (fun p => p.1 * p.2)).sum

/-- `sumXX` accumulated at line 104. -/
def sumXX (pts : List (ℚ × ℚ)) : ℚ := (pts.map (fun p => p.1 * p.1)).sum

/-- `slope = (n*sumXY - sumX*sumY) / (n*sumXX - sumX*sumX)` (line 108). -/
def codeSlope (pts : List (ℚ × ℚ)) : ℚ :=
  ((pts.length : ℚ) * sumXY pts - sumX pts * sumY pts)
    / ((pts.length : ℚ) * sumXX pts - sumX pts * sumX pts)

/-- `intercept = (sumY - slope*sumX) / n` (line 109). -/
def codeIntercept (pts : List (ℚ × ℚ)) : ℚ :=
  (sumY pts - codeSlope pts * sumX pts) / (pts.length : ℚ)

/-- `lastX = points[points.length - 1].x` (line 112); reading index `-1` of an
empty array gives `undefined`, modelled by the `getD 0` default (unreachable:
the guard at line 92 has already returned). -/
def lastXOf (pts : List (ℚ × ℚ)) : ℚ := ((pts.getLast?).map Prod.fst).getD 0

/-- `linearRegression` (lines 84-129): guard `points.length < 2` at line 92,
then the slope/intercept fit and the loop at lines 115-122 projecting
`i = 1, 2, 3` steps past `lastX`, each value clamped by
`Math.max(0, Math.min(100, y))` and pushed through `Math.round`. -/
def linearRegression (data : List HistoricalPoint) : List ℚ :=
  let points := regressionPoints data
  if points.length < 2 then [50, 55, 60]
  else
    ([1, 2, 3] : List ℚ).map (fun i =>
      ((jsRound (max 0 (min 100
        (codeSlope points * (lastXOf points + i) + codeIntercept points))) : ℤ) : ℚ))

/-- Per-keyword branch of `analyzeHistoricalTrends` (lines 68-75): a true fit
needs at least 3 points, otherwise the fixed default `[50, 55, 60]`. -/
def forecastKeyword (data : List HistoricalPoint) : List ℚ :=
  if 3 ≤ data.length then linearRegression data else [50, 55, 60]

/-- `analyzeHistoricalTrends` (lines 59-79); `historicalData[keyword] || []`
is the `getD []` on the association-list lookup. -/
def analyzeHistoricalTrends (keywords : List String)
    (historicalData : List (String × List HistoricalPoint)) :
    List (String × List ℚ) :=
  keywords.map (fun k => (k, forecastKeyword ((historicalData.lookup k).getD [])))

/-! ### `generateCombinedPrediction` (lines 163-249)

The generative collaborator's reply is abstracted by `DSResponse`: either
`JSON.parse` succeeded and produced an array of raw items (fields optional,
as the code defends against each being absent), or it produced a non-array
value, or parsing threw and only the raw text remains.  A thrown collaborator
call is the surrounding `Except.error`. -/

/-- One element of a successfully parsed generative reply; `none` fields model
absent (or non-array, for `predictedValues`) JSON members. -/
structure RawPredItem where
  keyword : Option String
  currentValue : Option ℚ
  predictedValues : Option (List ℚ)
  explanation : Option String
deriving DecidableEq

/-- Outcome of `JSON.parse` on the generative reply. -/
inductive DSResponse where
  | jsonArr (items : List RawPredItem)
  | jsonOther
  | unparsable (text : String)
deriving DecidableEq

/-- Validation of one parsed item (lines 213-219): `String(item.keyword || '')`,
`Number(item.currentValue || 0)`, `Array.isArray(item.predictedValues) ?
item.predictedValues.map(Number) : [50, 55, 60]`, `String(item.explanation || '')`.
For `keyword`/`explanation` the falsy value `""` defaults to `""` itself, and
for `currentValue` the falsy value `0` defaults to `0`, so `getD` is exact. -/
def validateParsedItem (item : RawPredItem) : PredictionDetail :=
  { keyword := item.keyword.getD ""
    currentValue := item.currentValue.getD 0
    predictedValues := item.predictedValues.getD [50, 55, 60]
    explanation := item.explanation.getD "" }

/-- The structured default built per keyword on the parse-failure path
(lines 226-234) and on the collaborator-error path (lines 239-247); only the
explanation text differs.  `keywordPredictions[keyword] || [50, 55, 60]` is the
lookup default; `predictions[0] || 50` maps the falsy value `0` (and an absent
head) to `50`; `predictions.slice(1) || [55, 60]` never takes its default
because a slice is always truthy, so it is exactly `drop 1`. -/
def defaultPredictionDetail (keywordPredictions : List (String × List ℚ))
    (explanation : String → String) (keyword : String) : PredictionDetail :=
  let predictions := (keywordPredictions.lookup keyword).getD [50, 55, 60]
  { keyword := keyword
    currentValue := match predictions.head? with
      | some v => if v = 0 then 50 else v
      | none => 50
    predictedValues := predictions.drop 1
    explanation := explanation keyword }

/-- `generateCombinedPrediction` (lines 163-249).  The niche, the qualitative
insight and the prompt only feed the collaborator call and do not influence
the result shape, so they are not parameters here. -/
def generateCombinedPrediction (keywords : List String)
    (keywordPredictions : List (String × List ℚ))
    (dsResp : Except Unit DSResponse) : List PredictionDetail :=
  match dsResp with
  | .error _ =>
      keywords.map (defaultPredictionDetail keywordPredictions
        (fun _ => "Predicción automática basada en datos históricos."))
  | .ok (.jsonArr items) => items.map validateParsedItem
  | .ok .jsonOther =>
      keywords.map (defaultPredictionDetail keywordPredictions
        (fun k => "Predicción basada en análisis de tendencias históricas para \"" ++ k ++ "\"."))
  | .ok (.unparsable _) =>
      keywords.map (defaultPredictionDetail keywordPredictions
        (fun k => "Predicción basada en análisis de tendencias históricas para \"" ++ k ++ "\"."))

/-! ### `calculateInterventionPoints` (lines 254-304)

The sort comparator at lines 261-262 references the name `p`, which is not in
scope there (the filter's `p` ended at line 259; the correct comparator over
`a`/`b` appears in `suggestNextActions`, lines 317-320).  JavaScript raises a
`ReferenceError` the first time the comparator runs, which happens exactly
when the filtered array has at least two elements; with zero or one element
`Array.prototype.sort` never invokes the comparator.  The possible throw makes
the embedding `Except`-valued. -/

/-- The filter predicate at line 259:
`p.predictedValues[p.predictedValues.length - 1] > p.currentValue`; on an
empty array the indexed read is `undefined` and the comparison is `false`. -/
def isGrowing (p : PredictionDetail) : Bool :=
  match p.predictedValues.getLast? with
  | some v => p.currentValue < v
  | none => false

/-- `calculateInterventionPoints` (lines 254-304); `now` is the call time and
the three cadence entries are `now + 7`, `now + 14`, `now + 30` days. -/
def calculateInterventionPoints (now : ℤ) (predictions : List PredictionDetail) :
    Except Unit (List InterventionPoint) :=
  let filtered := predictions.filter isGrowing
  if 2 ≤ filtered.length then .error ()
  else
    let growingKeywords := filtered.map (fun p => p.keyword)
    if 0 < growingKeywords.length then
      .ok [ { timestamp := now + 7
              action := "Crear contenido optimizado para conversión"
              keywords := growingKeywords.take 2 }
          , { timestamp := now + 14
              action := "Lanzar campaña de marketing focalizada"
              keywords := growingKeywords.take 3 }
          , { timestamp := now + 30
              action := "Desarrollar productos/servicios relacionados"
              keywords := growingKeywords } ]
    else .ok []

/-! ### `suggestNextActions` (lines 309-346) and `getDefaultActions` (381-389) -/

/-- The growth used by the (correct) comparator of `suggestNextActions`:
`predictedValues[length - 1] - currentValue`.  On an empty forecast array the
JavaScript value is `NaN` and the sort order is implementation-defined; the
`getD 0` default stands in for that case, which no verified property visits. -/
def growthOf (p : PredictionDetail) : ℚ :=
  (p.predictedValues.getLast?.getD 0) - p.currentValue

/-- `getDefaultActions` (lines 381-389); `keywords[0] || niche` maps an absent
head and the falsy value `""` to the niche. -/
def getDefaultActions (niche : String) (keywords : List String) : List String :=
  let k0 := match keywords.head? with
    | some k => if k = "" then niche else k
    | none => niche
  [ "Crear contenido optimizado para SEO enfocado en " ++ k0
  , "Desarrollar una guía completa sobre " ++ niche ++ " incluyendo las últimas tendencias"
  , "Lanzar una campaña en redes sociales destacando " ++ String.intercalate " y " keywords
  , "Optimizar las páginas existentes para mejorar el posicionamiento en "
      ++ String.intercalate ", " keywords
  , "Crear una serie de videos educativos sobre " ++ niche ++ " para aumentar el engagement" ]

/-- Line splitting of the generative reply (lines 336-339): split on newlines,
trim, drop empties, keep the first five. -/
def splitActions (response : String) : List String :=
  (((response.splitOn "\n").map String.trim).filter (fun l => 0 < l.length)).take 5

/-- `suggestNextActions` (lines 309-346): on a collaborator throw the catch
returns `getDefaultActions(niche, keywords.slice(0, 2))`; otherwise the reply
is split into at most five actions, with `getDefaultActions(niche, topKeywords)`
as fallback when no line survives.  `topKeywords` sorts by growth descending
(the correct `a`/`b` comparator) and takes three. -/
def suggestNextActions (niche : String) (keywords : List String)
    (predictions : List PredictionDetail) (cohereActions : Except Unit String) :
    List String :=
  match cohereActions with
  | .error _ => getDefaultActions niche (keywords.take 2)
  | .ok response =>
      let topKeywords :=
        ((List.insertionSort (fun a b => growthOf b ≤ growthOf a) predictions).take 3).map
          (fun p => p.keyword)
      let actions := splitActions response
      if 0 < actions.length then actions else getDefaultActions niche topKeywords

/-! ### `calculateConfidenceScore` (lines 351-367) and `calculateVariance` (372-376) -/

/-- `calculateVariance` (lines 372-376): mean squared deviation from the mean.
On the empty list both divisions are by zero; rational division by zero is `0`,
matching the value the caller effectively uses (it never reads this case). -/
def calculateVariance (values : List ℚ) : ℚ :=
  let mean := values.sum / (values.length : ℚ)
  ((values.map (fun v => (v - mean) ^ 2)).sum) / (values.length : ℚ)

/-- Total number of forecast data points (line 353). -/
def totalDataPoints (predictions : List (String × List ℚ)) : ℕ :=
  (predictions.map (fun kv => kv.2.length)).sum

/-- `calculateConfidenceScore` (lines 351-367): base `min(70, dataPoints * 5)`,
volatility penalty summing `variance/10` over keywords with more than one
value, final clamp `Math.max(30, Math.min(95, ...))`. -/
def calculateConfidenceScore (predictions : List (String × List ℚ)) : ℚ :=
  let baseConfidence : ℚ := min 70 ((totalDataPoints predictions : ℚ) * 5)
  let volatilityPenalty : ℚ :=
    (predictions.map (fun kv =>
      if 1 < kv.2.length then calculateVariance kv.2 / 10 else 0)).sum
  max 30 (min 95 (baseConfidence - volatilityPenalty))

/-! ### `analyzeContent` (lines 134-158), `generateFallbackPrediction` (394-419),
and the `predictTrends` entry point (lines 18-54) -/

/-- `analyzeContent` (lines 134-158): empty input yields the fixed
"insufficient data" text; a collaborator throw is caught and yields the fixed
"analysis unavailable" text.  The result only feeds later prompts. -/
def analyzeContent (recentArticles : List String)
    (cohereInsight : Except Unit String) : String :=
  if recentArticles.length = 0 then
    "No hay datos de contenido suficientes para el análisis."
  else
    match cohereInsight with
    | .ok s => s
    | .error _ => "No se pudo completar el análisis de contenido."

/-- `generateFallbackPrediction` (lines 394-419); `nextMonthTs` abstracts the
`setMonth(getMonth() + 1)` date arithmetic. -/
def generateFallbackPrediction (niche : String) (keywords : List String)
    (nextMonthTs : ℤ) : TrendPredictionResponse :=
  { niche := niche
    keywords := keywords
    predictions := keywords.map (fun keyword =>
      { keyword := keyword
        currentValue := 50
        predictedValues := [55, 60, 65]
        explanation := "Estimación basada en tendencias generales para \"" ++ keyword ++ "\"." })
    interventionPoints :=
      [ { timestamp := nextMonthTs
          action := "Desarrollar contenido optimizado"
          keywords := keywords.take 2 } ]
    nextActions := getDefaultActions niche keywords
    confidenceScore := 35 }

/-- Environment of one `predictTrends` call: the generative collaborator's
reply for the combined prediction, the two text-generation calls, the clock,
and the abstracted one-month-ahead timestamp of the fallback. -/
structure PEnv where
  dsResp : Except Unit DSResponse
  cohereInsight : Except Unit String
  cohereActions : Except Unit String
  now : ℤ
  nextMonthTs : ℤ

/-- The `try` block of `predictTrends` (lines 24-49).  Steps 1-3 and the later
stages catch their own collaborator failures; the only statement that can
throw here is `calculateInterventionPoints` (the out-of-scope `p`). -/
def predictTrendsBody (niche : String) (keywords : List String)
    (historicalData : List (String × List HistoricalPoint))
    (recentArticles : List String) (env : PEnv) :
    Except Unit TrendPredictionResponse :=
  let keywordPredictions := analyzeHistoricalTrends keywords historicalData
  let _contentInsights := analyzeContent recentArticles env.cohereInsight
  let combinedPrediction := generateCombinedPrediction keywords keywordPredictions env.dsResp
  match calculateInterventionPoints env.now combinedPrediction with
  | .error e => .error e
  | .ok interventionPoints =>
      .ok { niche := niche
            keywords := keywords
            predictions := combinedPrediction
            interventionPoints := interventionPoints
            nextActions := suggestNextActions niche keywords combinedPrediction env.cohereActions
            confidenceScore := calculateConfidenceScore keywordPredictions }

/-- `predictTrends` (lines 18-54): any exception escaping the body is caught
and answered with the emergency fallback prediction. -/
def predictTrends (niche : String) (keywords : List String)
    (historicalData : List (String × List HistoricalPoint))
    (recentArticles : List String) (env : PEnv) : TrendPredictionResponse :=
  match predictTrendsBody niche keywords historicalData recentArticles env with
  | .ok r => r
  | .error _ => generateFallbackPrediction niche keywords env.nextMonthTs

/-! ## `src/services/trends.service.ts`

The basic `TrendsService`: Google-Trends fetch with simulated fallback, news
articles, opportunity analysis with the regex fallback parser, and the
`getTrendsForNiche` entry point whose catch re-throws a wrapped error. -/

/-- One news article (`getRecentArticles` result shape, lines 39-67). -/
structure Article where
  title : String
  link : String
  pubDate : String
  source : String
deriving DecidableEq

/-- One content opportunity (`TrendOpportunity` in `trends-dto`); the optional
`growth`/`approach` members set by other variants are irrelevant to the
verified properties and omitted. -/
structure TrendOpportunity where
  id : ℕ
  title : String
  justification : String
  suggestedTitles : List String
deriving DecidableEq

/-- One point of the Google-Trends timeline: `{value: number[]}`, one entry
per compared keyword. -/
structure TimelinePoint where
  value : List ℚ
deriving DecidableEq

/-- The parsed Google-Trends payload shape the service reads:
`default.timelineData` and the keywords of `default.comparisonItem`. -/
structure TrendsPayload where
  timelineData : List TimelinePoint
  comparisonKeywords : List String
deriving DecidableEq

/-- One trending-keyword record `{keyword, growth}`; `growth` is `none` when
the JavaScript division produced `Infinity` (zero denominator). -/
structure TrendingKeyword where
  keyword : String
  growth : Option ℚ
deriving DecidableEq

/-- Result of `processTrendsData` (lines 111-135). -/
structure ProcessedTrends where
  trendingKeywords : List TrendingKeyword
  timelineData : List TimelinePoint
deriving DecidableEq

/-- The result contract of `getTrendsForNiche` (`TrendsResponse`). -/
structure TrendsResponse where
  niche : String
  keywords : List String
  trendingKeywords : List TrendingKeyword
  recentArticles : List String
  opportunities : List TrendOpportunity
deriving DecidableEq

/-- Division as JavaScript performs it in the growth formulas: `none` models
the `Infinity` produced by a zero denominator. -/
def growthWithDen (den first lastv : ℚ) : Option ℚ :=
  if den = 0 then none else some ((lastv - first) / den * 100)

/-- `trendsData?.default?.comparisonItem?.[index]?.keyword || keyword_${index}`
(line 121): an absent entry and the falsy value `""` fall back to the
synthetic name. -/
def keywordLabel (comparisonKeywords : List String) (index : ℕ) : String :=
  match comparisonKeywords.get? index with
  | some k => if k = "" then "keyword_" ++ toString index else k
  | none => "keyword_" ++ toString index

/-- `processTrendsData` (lines 111-135), the single-window path: compare the
first and last timeline points per keyword index; when the last value exceeds
the first, record growth `((last - first) / first) * 100` — dividing by the
raw first value.  An out-of-range read of `lastDataPoints[index]` is
`undefined` and the `>` comparison is `false`.  The `timelineData.length > 0`
guard of the source is implied: an empty timeline yields empty data points and
an empty loop. -/
def processTrendsDataSimple (trendsData : TrendsPayload) : ProcessedTrends :=
  let timelineData := trendsData.timelineData
  let firstDataPoints := (timelineData.head?.map (fun p => p.value)).getD []
  let lastDataPoints := ((timelineData.getLast?).map (fun p => p.value)).getD []
  let trendingKeywords := firstDataPoints.enum.filterMap (fun iv =>
    match lastDataPoints.get? iv.1 with
    | some lv =>
        if iv.2 < lv then
          some { keyword := keywordLabel trendsData.comparisonKeywords iv.1
                 growth := growthWithDen iv.2 iv.2 lv }
        else none
    | none => none)
  { trendingKeywords := trendingKeywords, timelineData := timelineData }

/-- `getSimulatedTrendsData` (lines 151-161): two timeline points whose values
are `Math.floor(Math.random() * 50)` and `Math.floor(Math.random() * 100)`
per keyword; `rand` enumerates the successive `Math.random()` draws. -/
def getSimulatedTrendsDataSimple (keywords : List String) (rand : ℕ → ℚ) :
    TrendsPayload :=
  { timelineData :=
      [ { value := keywords.enum.map (fun ik => ((⌊rand ik.1 * 50⌋ : ℤ) : ℚ)) }
      , { value := keywords.enum.map (fun ik =>
            ((⌊rand (keywords.length + ik.1) * 100⌋ : ℤ) : ℚ)) } ]
    comparisonKeywords := keywords }

/-! ### The regex fallback parser `extractOpportunitiesFromText` (lines 137-149)

The pattern `/oportunidad.*?(?=oportunidad|$)/gi` is executed literally over
the character list: a match starts at a case-insensitive occurrence of the
marker word and extends lazily — without crossing a newline, as `.` does not
match `\n` — until the look-ahead sees another marker occurrence or the end of
input.  On failure the scan restarts one character further. -/

/-- ASCII lower-casing, for the case-insensitive (`i`) flag. -/
def lcChar (c : Char) : Char :=
  if 'A' ≤ c ∧ c ≤ 'Z' then Char.ofNat (c.toNat + 32) else c

/-- The marker word of the fallback pattern. -/
def markerChars : List Char := ['o', 'p', 'o', 'r', 't', 'u', 'n', 'i', 'd', 'a', 'd']

/-- Does a case-insensitive occurrence of the marker start here? -/
def isMarkerAt (t : List Char) : Bool :=
  (t.take 11).map lcChar == markerChars

/-- Lazy extension `.*?(?=oportunidad|$)`: the least number of non-newline
characters that can be consumed so that the look-ahead succeeds, `none` when a
newline blocks every extension. -/
def lazyExt : List Char → Option ℕ
  | [] => some 0
  | c :: cs =>
      if isMarkerAt (c :: cs) then some 0
      else if c = '\n' then none
      else (lazyExt cs).map (fun e => e + 1)

/-- Length of a whole-pattern match starting at this position, if any. -/
def tryMatch (t : List Char) : Option ℕ :=
  if isMarkerAt t then (lazyExt (t.drop 11)).map (fun e => 11 + e) else none

/-- Global (`g`) scan collecting successive non-overlapping matches; the fuel
argument (initially the text length) only serves structural recursion — a
successful match consumes at least the 11 marker characters and a failed
attempt advances one character, so the text length always suffices. -/
def scanMatchesF : ℕ → List Char → List (List Char)
  | 0, _ => []
  | _ + 1, [] => []
  | fuel + 1, c :: cs =>
      match tryMatch (c :: cs) with
      | some n => (c :: cs).take n :: scanMatchesF fuel ((c :: cs).drop n)
      | none => scanMatchesF fuel cs

/-- All matches of `/oportunidad.*?(?=oportunidad|$)/gi` in the text. -/
def scanMatches (t : List Char) : List (List Char) := scanMatchesF t.length t

/-- Is there a case-insensitive occurrence of the marker anywhere? -/
def hasMarker : List Char → Bool
  | [] => false
  | c :: cs => isMarkerAt (c :: cs) || hasMarker cs

/-- JavaScript `\s` on the character set this code can meet (ASCII). -/
def isJsWs (c : Char) : Bool := c == ' ' || c == '\t' || c == '\n' || c == '\r'

/-- JavaScript `\d`. -/
def isDigitChar (c : Char) : Bool := decide ('0' ≤ c ∧ c ≤ '9')

/-- Length of a match of `/oportunidad\s*\d+:\s*/i` at this position, if any. -/
def matchMarkerNum (t : List Char) : Option ℕ :=
  if isMarkerAt t then
    let r1 := t.drop 11
    let ws1 := (r1.takeWhile isJsWs).length
    let r2 := r1.drop ws1
    let ds := (r2.takeWhile isDigitChar).length
    if ds = 0 then none
    else
      match r2.drop ds with
      | ':' :: r4 => some (11 + ws1 + ds + 1 + (r4.takeWhile isJsWs).length)
      | _ => none
  else none

/-- `String.prototype.replace` with the pattern above: delete the first match. -/
def removeFirstMarkerNum : List Char → List Char
  | [] => []
  | c :: cs =>
      match matchMarkerNum (c :: cs) with
      | some n => (c :: cs).drop n
      | none => c :: removeFirstMarkerNum cs

/-- `match.split('\n')[0]`. -/
def firstLine (t : List Char) : List Char := t.takeWhile (fun c => c != '\n')

/-- JavaScript `String.prototype.trim` (over the same ASCII whitespace). -/
def trimChars (t : List Char) : List Char :=
  ((t.dropWhile isJsWs).reverse.dropWhile isJsWs).reverse

/-- `extractOpportunitiesFromText` (lines 137-149): one opportunity per match,
ids starting at 1, title from the first line of the match with a leading
`oportunidad N:` prefix removed and trimmed, the whole match as justification,
and a single synthetic suggested title. -/
def extractOpportunitiesFromText (text : String) : List TrendOpportunity :=
  (scanMatches text.data).enum.map (fun im =>
    { id := im.1 + 1
      title := String.mk (trimChars (removeFirstMarkerNum (firstLine im.2)))
      justification := String.mk im.2
      suggestedTitles := ["Título sugerido para oportunidad " ++ toString (im.1 + 1)] })

/-! ### `analyzeOpportunities` (lines 69-109) and `getTrendsForNiche` (13-22) -/

/-- Outcome of `JSON.parse` on the opportunity-analysis reply: either a parsed
opportunity array or the raw unparsable text handed to the regex fallback. -/
inductive AIAnalysis where
  | jsonOpps (opps : List TrendOpportunity)
  | raw (text : String)

/-- Environment of one `getTrendsForNiche` call: the Google-Trends fetch (its
`JSON.parse` folded in), the `Math.random()` stream of the simulated fallback,
the news fetch, and the generative collaborator's reply.  `dsResp` as
`Except.error` models a collaborator call that throws — the one call of this
service not wrapped in its own `try`. -/
structure TEnv where
  basicTrends : Except Unit TrendsPayload
  rand : ℕ → ℚ
  articles : Except Unit (List Article)
  dsResp : Except Unit AIAnalysis

/-- `getBasicTrends` (lines 24-37): fetch failure or parse failure falls back
to the simulated data. -/
def getBasicTrends (keywords : List String) (env : TEnv) : TrendsPayload :=
  match env.basicTrends with
  | .ok payload => payload
  | .error _ => getSimulatedTrendsDataSimple keywords env.rand

/-- `getRecentArticles` (lines 39-67): keep the first `limit` feed items with a
non-empty title; a fetch failure yields the empty list. -/
def getRecentArticles (limit : ℕ) (env : TEnv) : List Article :=
  match env.articles with
  | .ok items => (items.take limit).filter (fun a => a.title != "")
  | .error _ => []

/-- `analyzeOpportunities` (lines 69-109): process the trends payload, call the
generative collaborator (uncaught here — a throw propagates), then take the
parsed opportunities or run the regex fallback on the raw text. -/
def analyzeOpportunities (niche : String) (keywords : List String)
    (trendsData : TrendsPayload) (articles : List Article) (env : TEnv) :
    Except Unit TrendsResponse :=
  let processedTrends := processTrendsDataSimple trendsData
  match env.dsResp with
  | .error e => .error e
  | .ok analysis =>
      .ok { niche := niche
            keywords := keywords
            trendingKeywords := processedTrends.trendingKeywords
            recentArticles := articles.map (fun a => a.title)
            opportunities :=
              match analysis with
              | .jsonOpps opps => opps
              | .raw text => extractOpportunitiesFromText text }

/-- The message of the error re-thrown by `getTrendsForNiche` (line 20). -/
def trendsFailureMessage : String := "No se pudieron obtener las tendencias en este momento"

/-- The `try` block of `getTrendsForNiche` (lines 14-17). -/
def getTrendsForNicheBody (niche : String) (keywords : List String) (env : TEnv) :
    Except Unit TrendsResponse :=
  let trendsData := getBasicTrends keywords env
  let articles := getRecentArticles 5 env
  analyzeOpportunities niche keywords trendsData articles env

/-- `getTrendsForNiche` (lines 13-22): the catch does not return a fallback
result — it throws a fresh wrapped error to the caller. -/
def getTrendsForNiche (niche : String) (keywords : List String) (env : TEnv) :
    Except String TrendsResponse :=
  match getTrendsForNicheBody niche keywords env with
  | .ok r => .ok r
  | .error _ => .error trendsFailureMessage

/-! ## The enhanced `TrendsService` variant (`src/unnamed/part_001`)

Only the pieces the claims touch: the multi-window branch of
`processTrendsData` (lines 436-487) with its floored denominator and weighted
merge, and the improved `getSimulatedTrendsData` (lines 599-625, the file is
cut off right after the clamped value computation). -/

/-- Per-keyword data of one time window (`keywordItem` at line 442):
`keywordItem.data?.default?.timelineData || []` is flattened into the field. -/
structure KeywordWindow where
  keyword : String
  timelineData : List TimelinePoint
deriving DecidableEq

/-- One fetched window (`timeRangeData` at line 440). -/
structure WindowData where
  timeRange : String
  keywordData : Option (List KeywordWindow)
deriving DecidableEq

/-- The window weight of the merge (lines 458-459): `0.6` for the 1-week
window, `0.3` for 1-month, `0.1` otherwise. -/
def windowWeight (timeRange : String) : ℚ :=
  if timeRange = "today 1-w" then 3/5
  else if timeRange = "today 1-m" then 3/10
  else 1/10

/-- The weighted moving update of line 461-462:
`existing * (1 - w) + growth * w`.  Arithmetic on a non-finite operand stays
non-finite, hence `none` absorbs. -/
def mergeGrowth (existing g : Option ℚ) (w : ℚ) : Option ℚ :=
  match existing, g with
  | some e, some gv => some (e * (1 - w) + gv * w)
  | _, _ => none

/-- `findIndex` + update-or-push of lines 454-468: the first entry with this
keyword is updated by the weighted merge, otherwise the unweighted growth is
appended (the asymmetry §9 of the spec records). -/
def mergeKeywordGrowth (acc : List (String × Option ℚ)) (k : String)
    (g : Option ℚ) (w : ℚ) : List (String × Option ℚ) :=
  match acc with
  | [] => [(k, g)]
  | (k0, g0) :: rest =>
      if k0 = k then (k0, mergeGrowth g0 g w) :: rest
      else (k0, g0) :: mergeKeywordGrowth rest k g w

/-- Processing of one keyword's window data (lines 442-470):
`firstValue`/`lastValue` are `timelineData[...]?.value?.[0] || 0`, and a
growing keyword contributes `((last - first) / Math.max(1, first)) * 100` —
here the denominator IS floored to 1. -/
def processKeywordWindow (timeRange : String) (acc : List (String × Option ℚ))
    (item : KeywordWindow) : List (String × Option ℚ) :=
  if item.timelineData.length = 0 then acc
  else
    let firstValue := ((item.timelineData.head?.bind (fun p => p.value.head?)).getD 0)
    let lastValue := (((item.timelineData.getLast?).bind (fun p => p.value.head?)).getD 0)
    if firstValue < lastValue then
      mergeKeywordGrowth acc item.keyword
        (growthWithDen (max 1 firstValue) firstValue lastValue)
        (windowWeight timeRange)
    else acc

/-- The multi-window branch of `processTrendsData` (lines 436-487), producing
the trending keywords sorted descending by growth (comparator
`b.growth - a.growth`, line 481).  The display timeline assembled by
`transformTimelineData` is pure date formatting and not modelled. -/
def processTrendsDataMulti (windows : List WindowData) : List (String × Option ℚ) :=
  let unsorted := windows.foldl (fun acc w =>
    match w.keywordData with
    | none => acc
    | some items => items.foldl (processKeywordWindow w.timeRange) acc) []
  List.insertionSort (fun a b => (b.2.getD 0) ≤ (a.2.getD 0)) unsorted

/-- One simulated value of the enhanced Collector (lines 604-624):
`baseValue = 30 + Math.floor(r * 40)` plus a per-keyword-index trend component
(upward `i * 2` when `idx % 3 = 0`, fluctuating `sin(i * 0.5) * 15` when
`idx % 3 = 1`, a spike of `30` at `i = Math.floor(12 / 2) = 6` otherwise),
then `Math.max(5, Math.min(100, Math.floor(...)))`.  `r` is the
`Math.random()` draw and `s` the value of `Math.sin(i * 0.5)`, supplied
abstractly — the final bound does not depend on either. -/
def enhancedSimValue (i idx : ℕ) (r s : ℚ) : ℚ :=
  let baseValue : ℚ := 30 + ((⌊r * 40⌋ : ℤ) : ℚ)
  let adjusted : ℚ :=
    if idx % 3 = 0 then baseValue + i * 2
    else if idx % 3 = 1 then baseValue + s * 15
    else if i = 6 then baseValue + 30
    else baseValue
  max 5 (min 100 ((⌊adjusted⌋ : ℤ) : ℚ))

/-- The 12 rows of simulated values of the enhanced `getSimulatedTrendsData`
(lines 601-625); the file is truncated immediately after this computation, so
the assembly of the rows into timeline points (their timestamps) is not in the
sources — the verified property concerns the values themselves. -/
def getSimulatedTrendsDataEnhanced (keywords : List String) (rand sinv : ℕ → ℚ) :
    List (List ℚ) :=
  (List.range 12).map (fun i =>
    keywords.enum.map (fun ik =>
      enhancedSimValue i ik.1 (rand (i * keywords.length + ik.1)) (sinv i)))

/-! ## Spec-side definitions

Definitions that follow the specification's words rather than the source, for
the refinement comparisons; each is clearly named as spec-side. -/

/-- Mean of the x-coordinates (spec-side, for the OLS comparison). -/
def xMean (pts : List (ℚ × ℚ)) : ℚ := sumX pts / (pts.length : ℚ)

/-- Mean of the y-coordinates (spec-side, for the OLS comparison). -/
def yMean (pts : List (ℚ × ℚ)) : ℚ := sumY pts / (pts.length : ℚ)

/-- Spec-side slope of the "ordinary least-squares line over (index, value)
pairs": the textbook covariance form `Σ (x - x̄)(y - ȳ) / Σ (x - x̄)²`,
deliberately a different formula from the computational one the code uses, so
that the two can be compared. -/
def specOlsSlope (pts : List (ℚ × ℚ)) : ℚ :=
  ((pts.map (fun p => (p.1 - xMean pts) * (p.2 - yMean pts))).sum)
    / ((pts.map (fun p => (p.1 - xMean pts) ^ 2)).sum)

/-- Spec-side intercept `ȳ - slope · x̄` of the OLS line. -/
def specOlsIntercept (pts : List (ℚ × ℚ)) : ℚ :=
  yMean pts - specOlsSlope pts * xMean pts

/-- Does the environment's generative reply parse as a JSON array?  (The path
of `generateCombinedPrediction` that returns the reply's items verbatim.) -/
def isParsedArray : Except Unit DSResponse → Bool
  | .ok (.jsonArr _) => true
  | _ => false

/-! ## Helper lemmas -/

theorem calculateVariance_of_short (values : List ℚ) (h : values.length ≤ 1) :
    calculateVariance values = 0 := by
  cases values with
  | nil => simp [calculateVariance]
  | cons v vs =>
    cases vs with
    | nil => norm_num [calculateVariance]
    | cons w ws => simp at h

theorem calculateVariance_nonneg (values : List ℚ) : 0 ≤ calculateVariance values := by
  simp only [calculateVariance]
  apply div_nonneg
  · apply List.sum_nonneg
    intro a ha
    simp only [List.mem_map] at ha
    obtain ⟨v, _, rfl⟩ := ha
    positivity
  · positivity

theorem volatilityPenalty_if_eq (predictions : List (String × List ℚ)) :
    (predictions.map (fun kv =>
        if 1 < kv.2.length then calculateVariance kv.2 / 10 else 0)).sum
      = (predictions.map (fun kv => calculateVariance kv.2 / 10)).sum := by
  induction predictions with
  | nil => rfl
  | cons kv rest ih =>
    simp only [List.map_cons, List.sum_cons, ih]
    congr 1
    by_cases h : 1 < kv.2.length
    · rw [if_pos h]
    · rw [if_neg h, calculateVariance_of_short kv.2 (by omega), zero_div]

theorem volatilityPenalty_nonneg (predictions : List (String × List ℚ)) :
    0 ≤ (predictions.map (fun kv =>
        if 1 < kv.2.length then calculateVariance kv.2 / 10 else 0)).sum := by
  apply List.sum_nonneg
  intro a ha
  simp only [List.mem_map] at ha
  obtain ⟨kv, _, rfl⟩ := ha
  by_cases h : 1 < kv.2.length
  · rw [if_pos h]
    exact div_nonneg (calculateVariance_nonneg kv.2) (by norm_num)
  · rw [if_neg h]

theorem calculateConfidenceScore_le_70 (predictions : List (String × List ℚ)) :
    calculateConfidenceScore predictions ≤ 70 := by
  simp only [calculateConfidenceScore]
  apply max_le (by norm_num)
  refine le_trans (min_le_right _ _) ?_
  have h1 : min (70 : ℚ) ((totalDataPoints predictions : ℚ) * 5) ≤ 70 := min_le_left _ _
  have h2 := volatilityPenalty_nonneg predictions
  linarith

theorem calculateConfidenceScore_bounds (predictions : List (String × List ℚ)) :
    30 ≤ calculateConfidenceScore predictions ∧ calculateConfidenceScore predictions ≤ 95 := by
  simp only [calculateConfidenceScore]
  exact ⟨le_max_left _ _, max_le (by norm_num) (min_le_left _ _)⟩

theorem predictTrends_confidence (niche : String) (keywords : List String)
    (hist : List (String × List HistoricalPoint)) (arts : List String) (env : PEnv) :
    (predictTrends niche keywords hist arts env).confidenceScore
        = calculateConfidenceScore (analyzeHistoricalTrends keywords hist)
    ∨ (predictTrends niche keywords hist arts env).confidenceScore = 35 := by
  simp only [predictTrends, predictTrendsBody]
  cases calculateInterventionPoints env.now
      (generateCombinedPrediction keywords (analyzeHistoricalTrends keywords hist) env.dsResp) with
  | error e => right; rfl
  | ok ips => left; rfl

/-! ## Claims -/

/-- **C5**: for every historical series of length 0, 1, or 2, the Forecaster
returns exactly the fixed default sequence `[50, 55, 60]`, regardless of the
values in the series. -/
theorem c5_short_series_default (data : List HistoricalPoint) (h : data.length < 3) :
    forecastKeyword data = [50, 55, 60] := by
  simp only [forecastKeyword]
  rw [if_neg (by omega)]

/-- Witness for C5: a concrete length-2 series with arbitrary values. -/
theorem c5_short_series_default_witness :
    ([⟨"x", 3⟩, ⟨"y", 999⟩] : List HistoricalPoint).length < 3
      ∧ forecastKeyword [⟨"x", 3⟩, ⟨"y", 999⟩] = [50, 55, 60] :=
  ⟨by decide, c5_short_series_default _ (by decide)⟩

/-- **C1** (code bug): the sort comparator of `calculateInterventionPoints`
references the out-of-scope name `p`, so the call throws a `ReferenceError`
whenever at least two keywords are growing; `predictTrends` then answers with
the emergency fallback, whose intervention list has one entry instead of the
three claimed at `now + 7`/`now + 14`/`now + 30` days.  Evaluated here at two
growing keywords: the scheduler errors, and the end-to-end result carries a
single intervention point. -/
theorem c1_interventionPoints_crash :
    calculateInterventionPoints 0 [⟨"a", 10, [20], ""⟩, ⟨"b", 10, [30], ""⟩] = .error ()
    ∧ (predictTrends "n" ["a", "b"] [] []
        ⟨.ok (.jsonArr [⟨some "a", some 10, some [20], some ""⟩,
                        ⟨some "b", some 10, some [30], some ""⟩]),
         .error (), .error (), 0, 30⟩).interventionPoints.length = 1 :=
  ⟨rfl, rfl⟩

/-- **C10**: the Confidence Estimator never exceeds 70 (its base term is capped
at 70 and the volatility penalty is non-negative), the emergency fallback
returns exactly 35, and consequently the confidence returned by `predictTrends`
never reaches the upper clamp of 95 on any input. -/
theorem c10_confidence_upper_cap (predictions : List (String × List ℚ))
    (fniche niche : String) (fkeywords keywords : List String) (ts : ℤ)
    (hist : List (String × List HistoricalPoint)) (arts : List String) (env : PEnv) :
    calculateConfidenceScore predictions ≤ 70
    ∧ (generateFallbackPrediction fniche fkeywords ts).confidenceScore = 35
    ∧ (predictTrends niche keywords hist arts env).confidenceScore ≤ 70 := by
  refine ⟨calculateConfidenceScore_le_70 predictions, rfl, ?_⟩
  rcases predictTrends_confidence niche keywords hist arts env with h | h
  · rw [h]; exact calculateConfidenceScore_le_70 _
  · rw [h]; norm_num

/-- **C4**: the Confidence Estimator returns
`clamp(min(70, totalDataPoints·5) - Σ variance(values)/10, 30, 95)` — the
source's guard skipping keywords with at most one value is immaterial because
their variance is zero — and consequently the confidence score of the
prediction path always lies in `[30, 95]`. -/
theorem c4_confidence_formula (predictions : List (String × List ℚ))
    (niche : String) (keywords : List String)
    (hist : List (String × List HistoricalPoint)) (arts : List String) (env : PEnv) :
    calculateConfidenceScore predictions
      = max 30 (min 95 (min 70 ((totalDataPoints predictions : ℚ) * 5)
          - (predictions.map (fun kv => calculateVariance kv.2 / 10)).sum))
    ∧ 30 ≤ calculateConfidenceScore predictions
    ∧ calculateConfidenceScore predictions ≤ 95
    ∧ 30 ≤ (predictTrends niche keywords hist arts env).confidenceScore
    ∧ (predictTrends niche keywords hist arts env).confidenceScore ≤ 95 := by
  obtain ⟨hlo, hhi⟩ := calculateConfidenceScore_bounds predictions
  have hfull : (predictTrends niche keywords hist arts env).confidenceScore
        = calculateConfidenceScore (analyzeHistoricalTrends keywords hist)
      ∨ (predictTrends niche keywords hist arts env).confidenceScore = 35 :=
    predictTrends_confidence niche keywords hist arts env
  refine ⟨?_, hlo, hhi, ?_, ?_⟩
  · simp only [calculateConfidenceScore]
    rw [volatilityPenalty_if_eq]
  · rcases hfull with h | h <;> rw [h]
    · exact (calculateConfidenceScore_bounds _).1
    · norm_num
  · rcases hfull with h | h <;> rw [h]
    · exact (calculateConfidenceScore_bounds _).2
    · norm_num

theorem scanMatchesF_eq_nil_of_no_marker (fuel : ℕ) :
    ∀ t : List Char, hasMarker t = false → scanMatchesF fuel t = [] := by
  induction fuel with
  | zero => intro t _; cases t <;> rfl
  | succ fuel ih =>
    intro t h
    cases t with
    | nil => rfl
    | cons c cs =>
      rw [hasMarker] at h
      rw [Bool.or_eq_false_iff] at h
      have ht : tryMatch (c :: cs) = none := by
        rw [tryMatch, h.1]
        rfl
      rw [scanMatchesF, ht]
      exact ih cs h.2

theorem extractOpportunitiesFromText_length (text : String) :
    (extractOpportunitiesFromText text).length = (scanMatches text.data).length := by
  simp [extractOpportunitiesFromText]

/-- **C2** (counterexample): with the generative collaborator answering the
unparsable free text `"hola"` — which contains no occurrence of the
opportunity marker — `getTrendsForNiche` succeeds but returns an empty
opportunity list, against the claimed `opportunities.length ≥ 1`. -/
theorem c2_unparsable_text_empty_opportunities :
    ∃ r, getTrendsForNiche "yoga" ["yoga"]
        ⟨.ok ⟨[⟨[10]⟩, ⟨[20]⟩], ["yoga"]⟩, fun _ => 0, .ok [], .ok (.raw "hola")⟩ = .ok r
      ∧ r.opportunities = [] ∧ ¬ 1 ≤ r.opportunities.length := by
  refine ⟨_, rfl, rfl, ?_⟩
  decide

/-- **C2** (amended): the two-tier parsing yields a non-empty opportunity list
exactly when the regex pass finds a match of the marker pattern; free text
without any case-insensitive occurrence of "oportunidad" yields the empty
list. -/
theorem c2_amended_marker_occurrence (niche : String) (keywords : List String)
    (env : TEnv) (text : String) (hresp : env.dsResp = .ok (.raw text)) :
    (hasMarker text.data = false →
      ∃ r, getTrendsForNiche niche keywords env = .ok r ∧ r.opportunities = [])
    ∧ (scanMatches text.data ≠ [] →
      ∃ r, getTrendsForNiche niche keywords env = .ok r ∧ 1 ≤ r.opportunities.length) := by
  have hbody : getTrendsForNicheBody niche keywords env
      = .ok { niche := niche
              keywords := keywords
              trendingKeywords :=
                (processTrendsDataSimple (getBasicTrends keywords env)).trendingKeywords
              recentArticles := (getRecentArticles 5 env).map (fun a => a.title)
              opportunities := extractOpportunitiesFromText text } := by
    simp only [getTrendsForNicheBody, analyzeOpportunities, hresp]
  have hok : getTrendsForNiche niche keywords env
      = .ok { niche := niche
              keywords := keywords
              trendingKeywords :=
                (processTrendsDataSimple (getBasicTrends keywords env)).trendingKeywords
              recentArticles := (getRecentArticles 5 env).map (fun a => a.title)
              opportunities := extractOpportunitiesFromText text } := by
    simp only [getTrendsForNiche, hbody]
  constructor
  · intro hnm
    refine ⟨_, hok, ?_⟩
    show extractOpportunitiesFromText text = []
    simp only [extractOpportunitiesFromText, scanMatches]
    rw [scanMatchesF_eq_nil_of_no_marker _ _ hnm]
    rfl
  · intro hne
    refine ⟨_, hok, ?_⟩
    show 1 ≤ (extractOpportunitiesFromText text).length
    rw [extractOpportunitiesFromText_length]
    exact List.length_pos.mpr hne

/-- Witness for the amended C2, at the unparsable texts `"hola"` (no marker,
empty list) and `"oportunidad 1: pilates"` (one marker match, non-empty). -/
theorem c2_amended_marker_occurrence_witness :
    (∃ r, getTrendsForNiche "yoga" ["k"]
        ⟨.ok ⟨[], []⟩, fun _ => 0, .ok [], .ok (.raw "hola")⟩ = .ok r
      ∧ r.opportunities = [])
    ∧ (∃ r, getTrendsForNiche "yoga" ["k"]
        ⟨.ok ⟨[], []⟩, fun _ => 0, .ok [], .ok (.raw "oportunidad 1: pilates")⟩ = .ok r
      ∧ 1 ≤ r.opportunities.length) :=
  ⟨(c2_amended_marker_occurrence "yoga" ["k"] _ "hola" rfl).1 (by decide),
   (c2_amended_marker_occurrence "yoga" ["k"] _ "oportunidad 1: pilates" rfl).2 (by decide)⟩

/-- **C3** (counterexample): when the one collaborator call outside the inner
`try` blocks throws, `getTrendsForNiche` does not return a result object — its
catch re-throws a fresh wrapped error to the caller. -/
theorem c3_getTrends_propagates :
    getTrendsForNiche "yoga" ["yoga"]
        ⟨.ok ⟨[⟨[10]⟩, ⟨[20]⟩], ["yoga"]⟩, fun _ => 0, .ok [], .error ()⟩
      = .error trendsFailureMessage := rfl

/-- **C3** (amended): on total pipeline failure `predictTrends` answers with
the schema-conformant emergency fallback, while `getTrendsForNiche` propagates
a wrapped error instead of a result object. -/
theorem c3_amended_failure_behavior (niche : String) (keywords : List String)
    (tenv : TEnv) (pniche : String) (pkeywords : List String)
    (hist : List (String × List HistoricalPoint)) (arts : List String) (penv : PEnv)
    (h1 : ∃ u, getTrendsForNicheBody niche keywords tenv = .error u)
    (h2 : ∃ u, predictTrendsBody pniche pkeywords hist arts penv = .error u) :
    getTrendsForNiche niche keywords tenv = .error trendsFailureMessage
    ∧ predictTrends pniche pkeywords hist arts penv
        = generateFallbackPrediction pniche pkeywords penv.nextMonthTs := by
  obtain ⟨u1, h1⟩ := h1
  obtain ⟨u2, h2⟩ := h2
  constructor
  · simp only [getTrendsForNiche, h1]
  · simp only [predictTrends, h2]

/-- Witness for the amended C3: a throwing collaborator on the trends side and
the comparator crash (two growing keywords) on the prediction side. -/
theorem c3_amended_failure_behavior_witness :
    getTrendsForNiche "yoga" ["k"]
        ⟨.ok ⟨[⟨[10]⟩, ⟨[20]⟩], ["k"]⟩, fun _ => 0, .ok [], .error ()⟩
      = .error trendsFailureMessage
    ∧ predictTrends "n" ["a", "b"] [] [] ⟨.ok .jsonOther, .error (), .error (), 0, 30⟩
        = generateFallbackPrediction "n" ["a", "b"] 30 :=
  c3_amended_failure_behavior "yoga" ["k"] _ "n" ["a", "b"] [] [] _ ⟨(), rfl⟩ ⟨(), rfl⟩

theorem linearRegression_length (data : List HistoricalPoint) :
    (linearRegression data).length = 3 := by
  simp only [linearRegression]
  split <;> rfl

theorem forecastKeyword_length (data : List HistoricalPoint) :
    (forecastKeyword data).length = 3 := by
  simp only [forecastKeyword]
  split
  · exact linearRegression_length _
  · rfl

theorem analyzeHistoricalTrends_lookup_length (keywords : List String)
    (hist : List (String × List HistoricalPoint)) (k : String) :
    (((analyzeHistoricalTrends keywords hist).lookup k).getD [50, 55, 60]).length = 3 := by
  induction keywords with
  | nil => rfl
  | cons k0 ks ih =>
    simp only [analyzeHistoricalTrends, List.map_cons] at ih ⊢
    cases h : k == k0 with
    | true => simp [List.lookup, h, forecastKeyword_length]
    | false => simpa [List.lookup, h] using ih

theorem defaultPredictionDetail_length (keywords : List String)
    (hist : List (String × List HistoricalPoint)) (expl : String → String) (k : String) :
    (defaultPredictionDetail (analyzeHistoricalTrends keywords hist) expl k).predictedValues.length
      = 2 := by
  show ((((analyzeHistoricalTrends keywords hist).lookup k).getD [50, 55, 60]).drop 1).length = 2
  rw [List.length_drop, analyzeHistoricalTrends_lookup_length]

/-- **C7** (counterexample): when the parsed generative reply contains an item
whose `predictedValues` member is an empty array, `generateCombinedPrediction`
passes it through unvalidated and `predictTrends` returns a `PredictionDetail`
with an empty — hence not horizon-length — forecast array. -/
theorem c7_empty_predicted_values :
    ∃ d, d ∈ (predictTrends "n" ["x"] [] []
        ⟨.ok (.jsonArr [⟨some "x", some 50, some [], some "e"⟩]),
         .error (), .error (), 0, 30⟩).predictions
      ∧ d.predictedValues = [] := by
  refine ⟨⟨"x", 50, [], "e"⟩, ?_, rfl⟩
  decide

/-- **C7** (amended): whenever the generative reply is not a parsed JSON array,
every `PredictionDetail` returned by `predictTrends` has a non-empty
`predictedValues` of length 2 — on the parse-failure paths the first forecast
value is consumed as `currentValue` and `slice(1)` keeps two of the three — or
length 3 on the emergency fallback path; the configured horizon length 3 is
thus not kept on the parse-failure path, and on the parsed-array path the
length is whatever the reply supplies. -/
theorem c7_amended_lengths (niche : String) (keywords : List String)
    (hist : List (String × List HistoricalPoint)) (arts : List String) (env : PEnv)
    (h : isParsedArray env.dsResp = false) :
    ∀ d ∈ (predictTrends niche keywords hist arts env).predictions,
      d.predictedValues ≠ [] ∧ (d.predictedValues.length = 2 ∨ d.predictedValues.length = 3) := by
  have hcomb : ∀ d ∈ generateCombinedPrediction keywords
      (analyzeHistoricalTrends keywords hist) env.dsResp, d.predictedValues.length = 2 := by
    intro d hd
    cases hds : env.dsResp with
    | error u =>
      rw [hds] at hd
      simp only [generateCombinedPrediction, List.mem_map] at hd
      obtain ⟨k, _, rfl⟩ := hd
      exact defaultPredictionDetail_length keywords hist _ k
    | ok resp =>
      cases resp with
      | jsonArr items =>
        rw [hds] at h
        simp [isParsedArray] at h
      | jsonOther =>
        rw [hds] at hd
        simp only [generateCombinedPrediction, List.mem_map] at hd
        obtain ⟨k, _, rfl⟩ := hd
        exact defaultPredictionDetail_length keywords hist _ k
      | unparsable t =>
        rw [hds] at hd
        simp only [generateCombinedPrediction, List.mem_map] at hd
        obtain ⟨k, _, rfl⟩ := hd
        exact defaultPredictionDetail_length keywords hist _ k
  intro d hd
  simp only [predictTrends, predictTrendsBody] at hd
  cases hip : calculateInterventionPoints env.now
      (generateCombinedPrediction keywords (analyzeHistoricalTrends keywords hist) env.dsResp) with
  | ok ips =>
    simp only [hip] at hd
    have h2 := hcomb d hd
    refine ⟨?_, Or.inl h2⟩
    intro hnil
    rw [hnil] at h2
    simp at h2
  | error e =>
    simp only [hip] at hd
    simp only [generateFallbackPrediction, List.mem_map] at hd
    obtain ⟨k, _, rfl⟩ := hd
    exact ⟨by simp, Or.inr (by simp)⟩

/-- Witness for the amended C7: a parse failure with one keyword. -/
theorem c7_amended_lengths_witness :
    isParsedArray (PEnv.dsResp ⟨.ok .jsonOther, .error (), .error (), 0, 30⟩) = false
    ∧ ∀ d ∈ (predictTrends "n" ["a"] [] []
        ⟨.ok .jsonOther, .error (), .error (), 0, 30⟩).predictions,
        d.predictedValues ≠ [] ∧ (d.predictedValues.length = 2 ∨ d.predictedValues.length = 3) :=
  ⟨by decide, c7_amended_lengths "n" ["a"] [] [] _ (by decide)⟩

theorem mergeGrowth_isSome (g0 g : Option ℚ) (w : ℚ) (h0 : g0.isSome) (h : g.isSome) :
    (mergeGrowth g0 g w).isSome := by
  cases g0 <;> cases g <;> simp_all [mergeGrowth]

theorem growthWithDen_max_isSome (f l : ℚ) : (growthWithDen (max 1 f) f l).isSome := by
  rw [growthWithDen, if_neg]
  · rfl
  · intro hz
    have h1 : (1 : ℚ) ≤ max 1 f := le_max_left 1 f
    rw [hz] at h1
    norm_num at h1

theorem mergeKeywordGrowth_isSome (acc : List (String × Option ℚ)) (k : String)
    (g : Option ℚ) (w : ℚ) (hacc : ∀ e ∈ acc, e.2.isSome) (hg : g.isSome) :
    ∀ e ∈ mergeKeywordGrowth acc k g w, e.2.isSome := by
  induction acc with
  | nil =>
    intro e he
    simp only [mergeKeywordGrowth, List.mem_singleton] at he
    rw [he]
    exact hg
  | cons p rest ih =>
    obtain ⟨k0, g0⟩ := p
    intro e he
    rw [mergeKeywordGrowth] at he
    by_cases hk : k0 = k
    · rw [if_pos hk] at he
      rcases List.mem_cons.mp he with rfl | hmem
      · exact mergeGrowth_isSome g0 g w (hacc (k0, g0) (List.mem_cons_self _ _)) hg
      · exact hacc e (List.mem_cons_of_mem _ hmem)
    · rw [if_neg hk] at he
      rcases List.mem_cons.mp he with rfl | hmem
      · exact hacc (k0, g0) (List.mem_cons_self _ _)
      · exact ih (fun x hx => hacc x (List.mem_cons_of_mem _ hx)) e hmem

theorem processKeywordWindow_isSome (timeRange : String) (acc : List (String × Option ℚ))
    (item : KeywordWindow) (hacc : ∀ e ∈ acc, e.2.isSome) :
    ∀ e ∈ processKeywordWindow timeRange acc item, e.2.isSome := by
  simp only [processKeywordWindow]
  split
  · exact hacc
  · split
    · exact mergeKeywordGrowth_isSome acc _ _ _ hacc (growthWithDen_max_isSome _ _)
    · exact hacc

theorem foldl_processKeywordWindow_isSome (timeRange : String) (items : List KeywordWindow) :
    ∀ acc, (∀ e ∈ acc, e.2.isSome) →
      ∀ e ∈ items.foldl (processKeywordWindow timeRange) acc, e.2.isSome := by
  induction items with
  | nil => intro acc hacc; simpa using hacc
  | cons it rest ih =>
    intro acc hacc
    rw [List.foldl_cons]
    exact ih _ (processKeywordWindow_isSome timeRange acc it hacc)

theorem foldl_windows_isSome (windows : List WindowData) :
    ∀ acc, (∀ e ∈ acc, e.2.isSome) →
      ∀ e ∈ windows.foldl (fun acc w =>
          match w.keywordData with
          | none => acc
          | some items => items.foldl (processKeywordWindow w.timeRange) acc) acc,
        e.2.isSome := by
  induction windows with
  | nil => intro acc hacc; simpa using hacc
  | cons w rest ih =>
    intro acc hacc
    rw [List.foldl_cons]
    apply ih
    cases hkd : w.keywordData with
    | none => simpa [hkd] using hacc
    | some items =>
      simp only [hkd]
      exact foldl_processKeywordWindow_isSome w.timeRange items acc hacc

/-- **C8** (counterexample): the single-window path of `processTrendsData`
divides by the raw first value, so a first value of 0 with a growing last
value hits a zero denominator (`Infinity` in JavaScript, modelled as `none`);
the floored denominator the claim describes would instead have produced
1000. -/
theorem c8_single_window_divzero :
    (processTrendsDataSimple ⟨[⟨[0]⟩, ⟨[10]⟩], ["k"]⟩).trendingKeywords = [⟨"k", none⟩]
    ∧ growthWithDen (max 1 0) 0 10 = some 1000 :=
  ⟨rfl, by with_unfolding_all rfl⟩

/-- **C8** (amended): only the multi-window path floors its denominator to 1
(`Math.max(1, firstValue)`), so every growth value it produces is finite —
no division by zero happens there; the single-window path has no floor. -/
theorem c8_amended_multi_window_floor (windows : List WindowData) :
    ∀ e ∈ processTrendsDataMulti windows, e.2.isSome := by
  intro e he
  simp only [processTrendsDataMulti] at he
  rw [List.mem_insertionSort] at he
  exact foldl_windows_isSome windows [] (by simp) e he

/-- Witness for the amended C8: one 1-week window whose series rises from 0 to
10; the floored denominator yields the finite growth 1000. -/
theorem c8_amended_multi_window_floor_witness :
    ("k", (some 1000 : Option ℚ))
        ∈ processTrendsDataMulti [⟨"today 1-w", some [⟨"k", [⟨[0]⟩, ⟨[10]⟩]⟩]⟩]
    ∧ (("k", (some 1000 : Option ℚ)) : String × Option ℚ).2.isSome := by
  have hl : processTrendsDataMulti [⟨"today 1-w", some [⟨"k", [⟨[0]⟩, ⟨[10]⟩]⟩]⟩]
      = [("k", some 1000)] := by with_unfolding_all rfl
  have hmem : ("k", (some 1000 : Option ℚ))
      ∈ processTrendsDataMulti [⟨"today 1-w", some [⟨"k", [⟨[0]⟩, ⟨[10]⟩]⟩]⟩] := by
    rw [hl]
    exact List.mem_singleton.mpr rfl
  exact ⟨hmem, c8_amended_multi_window_floor _ _ hmem⟩

theorem enhancedSimValue_bounds (i idx : ℕ) (r s : ℚ) :
    5 ≤ enhancedSimValue i idx r s ∧ enhancedSimValue i idx r s ≤ 100 := by
  simp only [enhancedSimValue]
  exact ⟨le_max_left _ _, max_le (by norm_num) (min_le_left _ _)⟩

theorem floor_rand50_bounds (r : ℚ) (h0 : 0 ≤ r) (h1 : r < 1) :
    0 ≤ ((⌊r * 50⌋ : ℤ) : ℚ) ∧ ((⌊r * 50⌋ : ℤ) : ℚ) ≤ 99 := by
  constructor
  · have h : (0 : ℤ) ≤ ⌊r * 50⌋ := Int.le_floor.mpr (by push_cast; positivity)
    exact_mod_cast h
  · have hlt : ⌊r * 50⌋ < (50 : ℤ) := Int.floor_lt.mpr (by push_cast; linarith)
    have h : ⌊r * 50⌋ ≤ (99 : ℤ) := by omega
    exact_mod_cast h

theorem floor_rand100_bounds (r : ℚ) (h0 : 0 ≤ r) (h1 : r < 1) :
    0 ≤ ((⌊r * 100⌋ : ℤ) : ℚ) ∧ ((⌊r * 100⌋ : ℤ) : ℚ) ≤ 99 := by
  constructor
  · have h : (0 : ℤ) ≤ ⌊r * 100⌋ := Int.le_floor.mpr (by push_cast; positivity)
    exact_mod_cast h
  · have hlt : ⌊r * 100⌋ < (100 : ℤ) := Int.floor_lt.mpr (by push_cast; linarith)
    have h : ⌊r * 100⌋ ≤ (99 : ℤ) := by omega
    exact_mod_cast h

/-- **C9** (counterexample): the basic Collector's simulated series is not
bounded below by 5 — with a `Math.random()` draw of 0 the generated value is
0, outside the claimed `[5, 100]`. -/
theorem c9_simple_sim_below_five :
    ¬ (∀ tp ∈ (getSimulatedTrendsDataSimple ["k"] (fun _ => 0)).timelineData,
        ∀ v ∈ tp.value, 5 ≤ v ∧ v ≤ 100) := by
  intro h
  have hl : (getSimulatedTrendsDataSimple ["k"] (fun _ => 0)).timelineData
      = [⟨[0]⟩, ⟨[0]⟩] := by with_unfolding_all rfl
  have hm : (⟨[0]⟩ : TimelinePoint)
      ∈ (getSimulatedTrendsDataSimple ["k"] (fun _ => 0)).timelineData := by
    rw [hl]
    exact List.mem_cons_self _ _
  have h5 := (h _ hm 0 (List.mem_singleton.mpr rfl)).1
  norm_num at h5

/-- **C9** (amended): the enhanced Collector's simulated values are clamped
into `[5, 100]` by `Math.max(5, Math.min(100, ...))`, for any random draws and
any value of the sine component; the basic variant's values instead lie in
`[0, 99]` (floors of `random · 50` and `random · 100`) and can fall below 5. -/
theorem c9_amended_bounds (keywords : List String) (rand sinv : ℕ → ℚ)
    (hr : ∀ i, 0 ≤ rand i ∧ rand i < 1) :
    (∀ row ∈ getSimulatedTrendsDataEnhanced keywords rand sinv, ∀ v ∈ row, 5 ≤ v ∧ v ≤ 100)
    ∧ (∀ tp ∈ (getSimulatedTrendsDataSimple keywords rand).timelineData,
        ∀ v ∈ tp.value, 0 ≤ v ∧ v ≤ 99) := by
  constructor
  · intro row hrow v hv
    simp only [getSimulatedTrendsDataEnhanced, List.mem_map] at hrow
    obtain ⟨i, _, rfl⟩ := hrow
    simp only [List.mem_map] at hv
    obtain ⟨ik, _, rfl⟩ := hv
    exact enhancedSimValue_bounds _ _ _ _
  · intro tp htp v hv
    simp only [getSimulatedTrendsDataSimple, List.mem_cons, List.mem_singleton,
      List.not_mem_nil, or_false] at htp
    rcases htp with rfl | rfl
    · simp only [List.mem_map] at hv
      obtain ⟨ik, _, rfl⟩ := hv
      exact floor_rand50_bounds _ (hr _).1 (hr _).2
    · simp only [List.mem_map] at hv
      obtain ⟨ik, _, rfl⟩ := hv
      exact floor_rand100_bounds _ (hr _).1 (hr _).2

/-- Witness for the amended C9: the constant draw 1/2 and sine value 0. -/
theorem c9_amended_bounds_witness :
    (∀ i, 0 ≤ (fun _ : ℕ => (1 : ℚ)/2) i ∧ (fun _ : ℕ => (1 : ℚ)/2) i < 1)
    ∧ ((∀ row ∈ getSimulatedTrendsDataEnhanced ["k"] (fun _ => 1/2) (fun _ => 0),
          ∀ v ∈ row, 5 ≤ v ∧ v ≤ 100)
      ∧ (∀ tp ∈ (getSimulatedTrendsDataSimple ["k"] (fun _ => 1/2)).timelineData,
          ∀ v ∈ tp.value, 0 ≤ v ∧ v ≤ 99)) :=
  ⟨fun _ => by norm_num, c9_amended_bounds ["k"] _ _ (fun _ => by norm_num)⟩

theorem sum_centered_prod (pts : List (ℚ × ℚ)) (a b : ℚ) :
    ((pts.map (fun p => (p.1 - a) * (p.2 - b))).sum)
      = sumXY pts - a * sumY pts - b * sumX pts + (pts.length : ℚ) * (a * b) := by
  induction pts with
  | nil => simp [sumXY, sumY, sumX]
  | cons p rest ih =>
    simp only [sumXY, sumY, sumX, List.map_cons, List.sum_cons, List.length_cons] at ih ⊢
    rw [ih]
    push_cast
    ring

theorem sum_centered_sq (pts : List (ℚ × ℚ)) (a : ℚ) :
    ((pts.map (fun p => (p.1 - a) ^ 2)).sum)
      = sumXX pts - 2 * a * sumX pts + (pts.length : ℚ) * (a * a) := by
  induction pts with
  | nil => simp [sumXX, sumX]
  | cons p rest ih =>
    simp only [sumXX, sumX, List.map_cons, List.sum_cons, List.length_cons] at ih ⊢
    rw [ih]
    push_cast
    ring

theorem rangeSumQ (n : ℕ) :
    (((List.range n).map (fun i : ℕ => (i : ℚ))).sum) = (n : ℚ) * ((n : ℚ) - 1) / 2 := by
  induction n with
  | zero => simp
  | succ m ih =>
    rw [List.range_succ, List.map_append, List.sum_append, ih]
    simp only [List.map_cons, List.map_nil, List.sum_cons, List.sum_nil]
    push_cast
    ring

theorem rangeSqSumQ (n : ℕ) :
    (((List.range n).map (fun i : ℕ => (i : ℚ) * (i : ℚ))).sum)
      = (n : ℚ) * ((n : ℚ) - 1) * (2 * (n : ℚ) - 1) / 6 := by
  induction n with
  | zero => simp
  | succ m ih =>
    rw [List.range_succ, List.map_append, List.sum_append, ih]
    simp only [List.map_cons, List.map_nil, List.sum_cons, List.sum_nil]
    push_cast
    ring

theorem regressionPoints_length (data : List HistoricalPoint) :
    (regressionPoints data).length = data.length := by
  simp [regressionPoints]

theorem regressionPoints_map_fst (data : List HistoricalPoint) :
    (regressionPoints data).map Prod.fst = (List.range data.length).map (fun i : ℕ => (i : ℚ)) := by
  have h : (regressionPoints data).map Prod.fst
      = ((List.enum data).map Prod.fst).map (fun i : ℕ => (i : ℚ)) := by
    simp only [regressionPoints, List.map_map]
    rfl
  rw [h, List.enum_map_fst]

theorem sumX_regression (data : List HistoricalPoint) :
    sumX (regressionPoints data) = (data.length : ℚ) * ((data.length : ℚ) - 1) / 2 := by
  rw [sumX, regressionPoints_map_fst, rangeSumQ]

theorem sumXX_regression (data : List HistoricalPoint) :
    sumXX (regressionPoints data)
      = (data.length : ℚ) * ((data.length : ℚ) - 1) * (2 * (data.length : ℚ) - 1) / 6 := by
  have h : sumXX (regressionPoints data)
      = (((regressionPoints data).map Prod.fst).map (fun x => x * x)).sum := by
    rw [sumXX, List.map_map]
    rfl
  rw [h, regressionPoints_map_fst, List.map_map]
  have h2 : ((fun x : ℚ => x * x) ∘ fun i : ℕ => (i : ℚ)) = fun i : ℕ => (i : ℚ) * (i : ℚ) := rfl
  rw [h2, rangeSqSumQ]

theorem aux_den_pos (n : ℚ) (h2 : 2 ≤ n) :
    0 < n * (n * (n - 1) * (2 * n - 1) / 6) - n * (n - 1) / 2 * (n * (n - 1) / 2) := by
  have key : n * (n * (n - 1) * (2 * n - 1) / 6) - n * (n - 1) / 2 * (n * (n - 1) / 2)
      = n * n * (n - 1) * (n + 1) / 12 := by ring
  rw [key]
  have h0 : (0 : ℚ) < n := by linarith
  have hm : (0 : ℚ) < n - 1 := by linarith
  have hp : (0 : ℚ) < n + 1 := by linarith
  exact div_pos (mul_pos (mul_pos (mul_pos h0 h0) hm) hp) (by norm_num)

theorem regressionDen_pos (data : List HistoricalPoint) (hn : 2 ≤ data.length) :
    0 < (data.length : ℚ) * sumXX (regressionPoints data)
        - sumX (regressionPoints data) * sumX (regressionPoints data) := by
  rw [sumXX_regression, sumX_regression]
  exact aux_den_pos _ (by exact_mod_cast hn)

theorem div_div_shared (A B n : ℚ) (hn : n ≠ 0) : A / n / (B / n) = A / B := by
  by_cases hB : B = 0
  · rw [hB]
    simp
  · field_simp

theorem codeSlope_eq_specOls (data : List HistoricalPoint) (hn : 2 ≤ data.length) :
    codeSlope (regressionPoints data) = specOlsSlope (regressionPoints data) := by
  have hlen : ((regressionPoints data).length : ℚ) = (data.length : ℚ) := by
    rw [regressionPoints_length]
  have hcast : (2 : ℚ) ≤ (data.length : ℚ) := by exact_mod_cast hn
  have hn0 : ((regressionPoints data).length : ℚ) ≠ 0 := by
    rw [hlen]
    linarith
  have hnum : ((regressionPoints data).map (fun p =>
        (p.1 - xMean (regressionPoints data)) * (p.2 - yMean (regressionPoints data)))).sum
      = (((regressionPoints data).length : ℚ) * sumXY (regressionPoints data)
          - sumX (regressionPoints data) * sumY (regressionPoints data))
        / ((regressionPoints data).length : ℚ) := by
    rw [sum_centered_prod]
    simp only [xMean, yMean]
    field_simp
    ring
  have hden2 : ((regressionPoints data).map (fun p =>
        (p.1 - xMean (regressionPoints data)) ^ 2)).sum
      = (((regressionPoints data).length : ℚ) * sumXX (regressionPoints data)
          - sumX (regressionPoints data) * sumX (regressionPoints data))
        / ((regressionPoints data).length : ℚ) := by
    rw [sum_centered_sq]
    simp only [xMean]
    field_simp
    ring
  rw [specOlsSlope, hnum, hden2, div_div_shared _ _ _ hn0, codeSlope]

theorem codeIntercept_eq_specOls (data : List HistoricalPoint) (hn : 2 ≤ data.length) :
    codeIntercept (regressionPoints data) = specOlsIntercept (regressionPoints data) := by
  have hlen : ((regressionPoints data).length : ℚ) = (data.length : ℚ) := by
    rw [regressionPoints_length]
  have hcast : (2 : ℚ) ≤ (data.length : ℚ) := by exact_mod_cast hn
  have hn0 : ((regressionPoints data).length : ℚ) ≠ 0 := by
    rw [hlen]
    linarith
  rw [codeIntercept, specOlsIntercept, codeSlope_eq_specOls data hn, xMean, yMean]
  field_simp

theorem lastXOf_regression (data : List HistoricalPoint) (hn : 1 ≤ data.length) :
    lastXOf (regressionPoints data) = (data.length : ℚ) - 1 := by
  obtain ⟨m, hm⟩ : ∃ m, data.length = m + 1 := ⟨data.length - 1, by omega⟩
  have h1 : (regressionPoints data).getLast?.map Prod.fst
      = ((regressionPoints data).map Prod.fst).getLast? := (List.getLast?_map _ _).symm
  rw [lastXOf, h1, regressionPoints_map_fst, hm, List.range_succ, List.map_append]
  simp only [List.map_cons, List.map_nil]
  rw [List.getLast?_concat]
  simp only [Option.getD_some]
  push_cast
  ring

theorem jsRound_clamp_bounds (y : ℚ) :
    0 ≤ jsRound (max 0 (min 100 y)) ∧ jsRound (max 0 (min 100 y)) ≤ 100 := by
  have h0 : 0 ≤ max 0 (min 100 y) := le_max_left _ _
  have h100 : max 0 (min 100 y) ≤ 100 := max_le (by norm_num) (min_le_left _ _)
  constructor
  · rw [jsRound]
    exact Int.le_floor.mpr (by push_cast; linarith)
  · rw [jsRound]
    have hlt : ⌊max 0 (min 100 y) + 1/2⌋ < (101 : ℤ) := Int.floor_lt.mpr (by push_cast; linarith)
    omega

/-- **C6**: for every historical series with at least 3 points, the Forecaster
returns exactly the three values obtained by projecting the ordinary
least-squares line (here in textbook covariance form, proved equal to the
code's computational formula) one, two and three index steps past the last
point, clamped to `[0, 100]` and rounded half-up; hence every predicted value
is an integer in `[0, 100]`. -/
theorem c6_regression_projection (data : List HistoricalPoint) (hn : 3 ≤ data.length) :
    linearRegression data
      = ([1, 2, 3] : List ℚ).map (fun i =>
          ((jsRound (max 0 (min 100
            (specOlsSlope (regressionPoints data) * (((data.length : ℚ) - 1) + i)
              + specOlsIntercept (regressionPoints data)))) : ℤ) : ℚ))
    ∧ ∀ v ∈ linearRegression data, ∃ z : ℤ, v = (z : ℚ) ∧ 0 ≤ z ∧ z ≤ 100 := by
  have hn2 : 2 ≤ data.length := by omega
  have hlt : ¬ (regressionPoints data).length < 2 := by
    rw [regressionPoints_length]
    omega
  have heq : linearRegression data
      = ([1, 2, 3] : List ℚ).map (fun i =>
          ((jsRound (max 0 (min 100
            (codeSlope (regressionPoints data) * (lastXOf (regressionPoints data) + i)
              + codeIntercept (regressionPoints data)))) : ℤ) : ℚ)) := by
    simp only [linearRegression]
    rw [if_neg hlt]
  constructor
  · rw [heq, codeSlope_eq_specOls data hn2, codeIntercept_eq_specOls data hn2,
      lastXOf_regression data (by omega)]
  · intro v hv
    rw [heq] at hv
    simp only [List.mem_map] at hv
    obtain ⟨i, _, rfl⟩ := hv
    exact ⟨_, rfl, (jsRound_clamp_bounds _).1, (jsRound_clamp_bounds _).2⟩

/-- Witness for C6: the three-point ramp 10, 20, 30. -/
theorem c6_regression_projection_witness :
    3 ≤ ([⟨"a", 10⟩, ⟨"b", 20⟩, ⟨"c", 30⟩] : List HistoricalPoint).length
    ∧ (linearRegression [⟨"a", 10⟩, ⟨"b", 20⟩, ⟨"c", 30⟩]
        = ([1, 2, 3] : List ℚ).map (fun i =>
            ((jsRound (max 0 (min 100
              (specOlsSlope (regressionPoints [⟨"a", 10⟩, ⟨"b", 20⟩, ⟨"c", 30⟩])
                  * (((([⟨"a", 10⟩, ⟨"b", 20⟩, ⟨"c", 30⟩] : List HistoricalPoint).length : ℚ)
                      - 1) + i)
                + specOlsIntercept (regressionPoints [⟨"a", 10⟩, ⟨"b", 20⟩, ⟨"c", 30⟩])))) : ℤ) : ℚ))
      ∧ ∀ v ∈ linearRegression [⟨"a", 10⟩, ⟨"b", 20⟩, ⟨"c", 30⟩],
          ∃ z : ℤ, v = (z : ℚ) ∧ 0 ≤ z ∧ z ≤ 100) :=
  ⟨by decide, c6_regression_projection _ (by decide)⟩

end ContenAI
